import Mathlib

/-!
Shallow embedding of the per-channel quiz session state machine of
`app/main.py` (rkquiz_bot): command classification, puzzle sequencing,
the two-stage oracle protocol of `QuizGame`, the `active_games` registry
of `QuizBot`, and the idle-timeout driven loop of the `quiz` command.

External collaborators (the Discord transport, the OpenAI client, the
JSON file read) are modelled as inputs: the oracle is a function from
(system instruction, user prompt) to a result or a failure, the file
read is an `Except` value, and each `wait_for` call's outcome is one
element of a script of wait events.
-/

namespace RkQuiz

/-! ### Python string primitives used by the handler -/

/-- Python `str.lower()` restricted to the basic-latin range handled by
`Char.toLower` (the reserved command tokens contain no cased letters, so
they are fixed points under both). -/
def pyLower (s : String) : String := ⟨s.data.map Char.toLower⟩

/-- Python `str.startswith(t)` on code-point sequences. -/
def pyStarts (s t : String) : Bool := t.data.isPrefixOf s.data

/-- Python `str.strip()`: drop leading and trailing whitespace
(`main.py:57` applies it to the oracle's reply). -/
def pyStrip (s : String) : String :=
  ⟨((s.data.dropWhile Char.isWhitespace).reverse.dropWhile Char.isWhitespace).reverse⟩

/-- Python truthiness of an `Optional[str]`: `None` and `""` are falsy
(`main.py:73` tests `if previous_question:`, `main.py:158` tests
`if comparison_answer:`). -/
def pyTruthy : Option String → Bool
  | none => false
  | some s => !(s == "")

/-! ### Puzzle records (`questions.json` entries, `main.py:116-117`) -/

/-- One record of the puzzle source.  The `Question` and `Truth` fields
may be absent; `dict.get` with a default substitutes a placeholder. -/
structure PuzzleRecord where
  questionField : Option String
  truthField : Option String
deriving DecidableEq

/-- `question.get('Question', '問題が見つかりません')` (`main.py:116`). -/
def getQuestion (r : PuzzleRecord) : String := r.questionField.getD "問題が見つかりません"

/-- `question.get('Truth', '解答が見つかりません')` (`main.py:117`). -/
def getTruth (r : PuzzleRecord) : String := r.truthField.getD "解答が見つかりません"

/-! ### Oracle (`QuizGame`, `main.py:30-82`) -/

/-- A failure raised by the OpenAI client call: `openai.APIError` or any
other exception (`main.py:59-64`), carrying its `str(e)` text. -/
inductive OracleFailure
  | apiError (msg : String)
  | otherError (msg : String)
deriving DecidableEq

/-- The external oracle: system instruction and user prompt in, reply
text or failure out.  `response.choices[0].message.content` is the `.ok`
payload. -/
def Oracle := String → String → Except OracleFailure String

/-- The inline error text `ask_question` returns for a caught exception
(`main.py:61` and `main.py:64`). -/
def errorText : OracleFailure → String
  | .apiError m => "OpenAI APIエラー: " ++ m
  | .otherError m => "エラーが発生しました: " ++ m

/-- System instruction for the comparative judgment (`main.py:40-41`). -/
def comparisonSystem : String :=
  "前回の質問と比べて、今回の質問が正解に対して近いと判断できれば「前回よりも良い質問です。」とだけ答えなさい。" ++
  "前回の質問よりも正解から遠いと判断できた場合は「前回よりも悪い質問ですね」とだけ答えなさい。"

/-- System instruction for the direct yes/no judgment (`main.py:43-45`). -/
def directSystem : String :=
  "以下の情報と例に基づいて、ユーザーの質問に「はい」、「いいえ」、" ++
  "曖昧な場合は「ギリギリそう」や「ギリギリ違う」" ++
  "とも答えてよいです。"

/-- `system_content` chosen by the `is_comparison` flag (`main.py:39-46`). -/
def systemContent (is_comparison : Bool) : String :=
  if is_comparison then comparisonSystem else directSystem

/-- `QuizGame.ask_question` (`main.py:36-64`): one oracle round-trip;
a successful reply is stripped, a failure is caught locally and turned
into an inline error string. -/
def ask_question (oracle : Oracle) (prompt : String) (is_comparison : Bool) : String :=
  match oracle (systemContent is_comparison) prompt with
  | .ok r => pyStrip r
  | .error f => errorText f

/-- The direct-judgment prompt (`main.py:69`). -/
def questionPrompt (problem solution current_question : String) : String :=
  "## 問題\n" ++ problem ++ "\n\n## 真相\n" ++ solution ++ "\n\n## 質問\n" ++ current_question

/-- The comparative-judgment prompt (`main.py:74-79`). -/
def comparisonPrompt (problem solution previous_question current_question : String) : String :=
  "## 問題\n" ++ problem ++ "\n\n## 真相\n" ++ solution ++
  "\n\n## 前回の質問\n" ++ previous_question ++ "\n\n## 今回の質問\n" ++ current_question

/-- `QuizGame.get_responses` (`main.py:66-82`): always one direct call;
a second comparative call only when `previous_question` is truthy, else
the comparative answer stays `""`. -/
def get_responses (oracle : Oracle) (problem solution current_question : String)
    (previous_question : Option String) : String × String :=
  let regular_answer := ask_question oracle (questionPrompt problem solution current_question) false
  let comparison_answer :=
    match previous_question with
    | some p => if p == "" then "" else
        ask_question oracle (comparisonPrompt problem solution p current_question) true
    | none => ""
  (regular_answer, comparison_answer)

/-! ### Command classification (`main.py:130-148`) -/

/-- The command variants the message loop distinguishes. -/
inductive Command
  | cmdEnd
  | cmdSkip
  | cmdAnswer
  | cmdHint
  | ignored (raw : String)
  | question (raw : String)
deriving DecidableEq

/-- Classification of one inbound message: the lowercased content is
compared against the reserved tokens by exact value, any other
`!`-prefixed content is dropped, and everything else is a free-text
question carrying the ORIGINAL text (`main.py:130-148`). -/
def classify (raw : String) : Command :=
  let content := pyLower raw
  if content = "!終了" then .cmdEnd
  else if content = "!スキップ" then .cmdSkip
  else if content = "!解答" then .cmdAnswer
  else if content = "!ヒント" then .cmdHint
  else if pyStarts content "!" then .ignored raw
  else .question raw

/-! ### The `active_games` registry (`main.py:90`, `main.py:100-103`) -/

/-- One channel's registry entry: the dict
`{'previous_question': ..., 'current_problem': ...}` (`main.py:100-103`). -/
structure ChannelEntry where
  previous_question : Option String
  current_problem : Option PuzzleRecord
deriving DecidableEq

/-- The entry created at session start (`main.py:100-103`). -/
def initialEntry : ChannelEntry := ⟨none, none⟩

/-- `self.active_games`: a dict from channel id to entry. -/
abbrev Registry := List (Nat × ChannelEntry)

/-- Dict lookup `d[k]` / membership `k in d`. -/
def regLookup : Registry → Nat → Option ChannelEntry
  | [], _ => none
  | (c, e) :: r, c' => if c = c' then some e else regLookup r c'

/-- Dict assignment `d[k] = v`. -/
def regSet : Registry → Nat → ChannelEntry → Registry
  | [], c, e => [(c, e)]
  | (c, e) :: r, c', e' => if c = c' then (c', e') :: r else (c, e) :: regSet r c' e'

/-- `del d[k]`. -/
def regErase : Registry → Nat → Registry
  | [], _ => []
  | (c, e) :: r, c' => if c = c' then regErase r c' else (c, e) :: regErase r c'

/-- `d[k]['previous_question'] = p` (`main.py:138`, `main.py:142`, `main.py:161`). -/
def regSetPrev : Registry → Nat → Option String → Registry
  | [], _, _ => []
  | (c, e) :: r, c', p =>
    if c = c' then (c', { e with previous_question := p }) :: r
    else (c, e) :: regSetPrev r c' p

/-- `d[k]['current_problem'] = q` (`main.py:119`). -/
def regSetCurrent : Registry → Nat → PuzzleRecord → Registry
  | [], _, _ => []
  | (c, e) :: r, c', q =>
    if c = c' then (c', { e with current_problem := some q }) :: r
    else (c, e) :: regSetCurrent r c' q

/-- The read `self.active_games[ctx.channel.id]['previous_question']`
(`main.py:154`). -/
def prevOf (reg : Registry) (chan : Nat) : Option String :=
  match regLookup reg chan with
  | some e => e.previous_question
  | none => none

/-! ### Inbound messages and the `wait_for` contract (`main.py:124-129`) -/

/-- One inbound Discord message, reduced to the fields the handler reads. -/
structure Message where
  channelId : Nat
  authorIsBot : Bool
  content : String
deriving DecidableEq

/-- The wait predicate `check` (`main.py:126-127`): channel match and
non-bot sender. -/
def check (chan : Nat) (m : Message) : Bool :=
  m.channelId == chan && !m.authorIsBot

/-- The `timeout=300.0` argument of `wait_for` (`main.py:129`), in seconds. -/
def idleTimeoutSeconds : Nat := 300

/-- The outcome of one `wait_for('message', timeout=300.0, check=check)`
call: either the next inbound message satisfying `check`, or
`asyncio.TimeoutError` after `idleTimeoutSeconds` with no such message. -/
inductive WaitEvent
  | received (m : Message)
  | timedOut
deriving DecidableEq

/-! ### The session loop (`main.py:115-169`) -/

/-- How the session loop leaves the current turn. -/
inductive EndKind
  | terminated
  | timedOut
deriving DecidableEq

/-- Control flow out of one iteration of the inner `while True` loop:
`continue` (stay on the current puzzle), `break` (advance to the next
puzzle), or `return` (session over). -/
inductive LoopSignal
  | next
  | advance
  | stop (k : EndKind)
deriving DecidableEq

/-- One iteration of the inner `while True` body (`main.py:124-166`):
given the wait outcome, produce the updated registry, the outbound
sends of this turn in order, and the loop control signal. -/
def handleInbound (oracle : Oracle) (chan : Nat) (problem solution : String)
    (reg : Registry) (ev : WaitEvent) : Registry × List String × LoopSignal :=
  match ev with
  | .timedOut =>
    (regErase reg chan, ["5分間質問がなかったため、クイズを終了します。"], .stop .timedOut)
  | .received m =>
    match classify m.content with
    | .cmdEnd =>
      (regErase reg chan, ["クイズを終了します。お疲れさまでした！"], .stop .terminated)
    | .cmdSkip =>
      (regSetPrev reg chan none, ["問題をスキップします。"], .advance)
    | .cmdAnswer =>
      (regSetPrev reg chan none, ["解答: " ++ solution], .advance)
    | .cmdHint =>
      (reg, ["ヒント機能は現在実装されていません。"], .next)
    | .ignored _ =>
      (reg, [], .next)
    | .question raw =>
      let rc := get_responses oracle problem solution raw (prevOf reg chan)
      (regSetPrev reg chan (some raw),
       ("マスター: " ++ rc.1) ::
         (if rc.2 = "" then [] else ["質問の評価: " ++ rc.2]),
       .next)

/-- How a run of the inner `while True` loop ends. -/
inductive TurnsExit
  | advanced (rest : List WaitEvent)
  | stopped (k : EndKind)
  | exhausted
deriving DecidableEq

/-- The inner `while True` loop (`main.py:124-166`) over a finite script
of wait outcomes; `.exhausted` marks a run whose script ran out while
the loop was still waiting (the session still alive, mid-puzzle). -/
def runTurns (oracle : Oracle) (chan : Nat) (problem solution : String) :
    Registry → List WaitEvent → Registry × List String × TurnsExit
  | reg, [] => (reg, [], .exhausted)
  | reg, ev :: rest =>
    let h := handleInbound oracle chan problem solution reg ev
    match h.2.2 with
    | .next =>
      let r := runTurns oracle chan problem solution h.1 rest
      (r.1, h.2.1 ++ r.2.1, r.2.2)
    | .advance => (h.1, h.2.1, .advanced rest)
    | .stop k => (h.1, h.2.1, .stopped k)

/-- How the whole `quiz` invocation ends once a session was created. -/
inductive RunOutcome
  | terminated
  | timedOut
  | completed
  | pending
deriving DecidableEq

/-- The command help text block sent with each puzzle (`main.py:122`). -/
def commandHelp : String :=
  "```\nコマンド:\n!ヒント - ヒントを表示\n!解答 - 答えを表示\n!スキップ - 次の問題へ\n!終了 - ゲームを終了\n\n質問をそのまま入力することもできます。\n```"

/-- The `for i, question in enumerate(questions, 1)` loop
(`main.py:115-169`): present each puzzle, run its inner loop, and on
normal exhaustion of the queue send the completion message and delete
the registry entry (`main.py:168-169`). -/
def runPuzzles (oracle : Oracle) (chan : Nat) :
    Registry → Nat → List PuzzleRecord → List WaitEvent →
    Registry × List String × RunOutcome
  | reg, _, [], _ =>
    (regErase reg chan, ["全ての問題が終了しました。お疲れさまでした！"], .completed)
  | reg, i, q :: restPuzzles, script =>
    let problem := getQuestion q
    let solution := getTruth q
    let reg1 := regSetCurrent reg chan q
    let intro := ["\n**問題 " ++ toString i ++ ":** " ++ problem, commandHelp]
    let t := runTurns oracle chan problem solution reg1 script
    match t.2.2 with
    | .advanced rest =>
      let r := runPuzzles oracle chan t.1 (i + 1) restPuzzles rest
      (r.1, intro ++ t.2.1 ++ r.2.1, r.2.2)
    | .stopped .terminated => (t.1, intro ++ t.2.1, .terminated)
    | .stopped .timedOut => (t.1, intro ++ t.2.1, .timedOut)
    | .exhausted => (t.1, intro ++ t.2.1, .pending)

/-- Overall outcome of one `!quiz` invocation. -/
inductive QuizOutcome
  | alreadyActive
  | loadFailed
  | ran (out : RunOutcome)
deriving DecidableEq

/-- The `quiz` command handler (`main.py:94-169`).  `loadResult` is the
outcome of opening and JSON-parsing `questions.json` (`main.py:105-110`,
the caught exception's `str(e)` on the error side); `shuffle` is the
permutation applied by `random.shuffle` (`main.py:112`); `script` feeds
the `wait_for` outcomes.  Returns the final registry, all sends in
order, and the outcome. -/
def quizCommand (oracle : Oracle) (shuffle : List PuzzleRecord → List PuzzleRecord)
    (chan : Nat) (reg : Registry) (loadResult : Except String (List PuzzleRecord))
    (script : List WaitEvent) : Registry × List String × QuizOutcome :=
  if (regLookup reg chan).isSome then
    (reg, ["このチャンネルではすでにクイズが進行中です。"], .alreadyActive)
  else
    let reg1 := regSet reg chan initialEntry
    match loadResult with
    | .error e => (reg1, ["問題の読み込みに失敗しました: " ++ e], .loadFailed)
    | .ok questions =>
      let qs := shuffle questions
      let r := runPuzzles oracle chan reg1 1 qs script
      (r.1, "===== 水平思考クイズを始めます！ =====" :: r.2.1, .ran r.2.2)

/-! ### Concrete instances used by witnesses and counterexamples -/

/-- An oracle that always answers `はい`. -/
def okOracle : Oracle := fun _ _ => .ok "はい"

/-- An oracle whose every call raises `openai.APIError`. -/
def failOracle : Oracle := fun _ _ => .error (.apiError "Connection error")

/-- A fully-populated one-record puzzle source. -/
def samplePuzzle : PuzzleRecord := ⟨some "P", some "S"⟩

/-! ### Registry lemmas -/

theorem regLookup_regSet (reg : Registry) (chan : Nat) (e : ChannelEntry) :
    regLookup (regSet reg chan e) chan = some e := by
  induction reg with
  | nil => simp [regSet, regLookup]
  | cons hd tl ih =>
    obtain ⟨c, e'⟩ := hd
    by_cases hc : c = chan
    · subst hc; simp [regSet, regLookup]
    · simp [regSet, regLookup, hc, ih]

theorem regLookup_regErase (reg : Registry) (chan : Nat) :
    regLookup (regErase reg chan) chan = none := by
  induction reg with
  | nil => simp [regErase, regLookup]
  | cons hd tl ih =>
    obtain ⟨c, e'⟩ := hd
    by_cases hc : c = chan
    · simp [regErase, hc, ih]
    · simp [regErase, regLookup, hc, ih]

theorem regLookup_regSetPrev (reg : Registry) (chan : Nat) (p : Option String)
    (e : ChannelEntry) (h : regLookup reg chan = some e) :
    regLookup (regSetPrev reg chan p) chan = some { e with previous_question := p } := by
  induction reg with
  | nil => simp [regLookup] at h
  | cons hd tl ih =>
    obtain ⟨c, e'⟩ := hd
    by_cases hc : c = chan
    · subst hc
      simp [regLookup] at h
      simp [regSetPrev, regLookup, h]
    · simp [regLookup, hc] at h
      simp [regSetPrev, regLookup, hc, ih h]

/-! ### Oracle-reply lemmas -/

theorem errorText_ne_empty (f : OracleFailure) : errorText f ≠ "" := by
  cases f with
  | apiError m =>
    intro h
    have hd := congrArg String.data h
    simp [errorText] at hd
  | otherError m =>
    intro h
    have hd := congrArg String.data h
    simp [errorText] at hd

theorem ask_question_ne_empty (oracle : Oracle) (prompt : String) (b : Bool)
    (h : ∀ sys p r, oracle sys p = .ok r → pyStrip r ≠ "") :
    ask_question oracle prompt b ≠ "" := by
  unfold ask_question
  cases hres : oracle (systemContent b) prompt with
  | ok r => exact h _ _ _ hres
  | error f => exact errorText_ne_empty f

/-! ### Loop lemmas -/

/-- A received message never produces the timed-out stop signal: only the
`asyncio.TimeoutError` branch does (`main.py:163-166`). -/
theorem handleInbound_received_stop (oracle : Oracle) (chan : Nat)
    (problem solution : String) (reg : Registry) (m : Message) (k : EndKind)
    (h : (handleInbound oracle chan problem solution reg (.received m)).2.2 = .stop k) :
    k = .terminated := by
  simp only [handleInbound] at h
  cases hc : classify m.content <;> rw [hc] at h <;> simp_all

/-- If the wait script contains no timeout outcome, the inner loop never
stops with the timed-out kind, and the script it hands to the next puzzle
contains no timeout either. -/
theorem runTurns_no_timeout (oracle : Oracle) (chan : Nat)
    (problem solution : String) :
    ∀ (script : List WaitEvent) (reg : Registry), WaitEvent.timedOut ∉ script →
      (runTurns oracle chan problem solution reg script).2.2 ≠ .stopped .timedOut ∧
      (∀ rest, (runTurns oracle chan problem solution reg script).2.2 = .advanced rest →
        WaitEvent.timedOut ∉ rest) := by
  intro script
  induction script with
  | nil =>
    intro reg _
    refine ⟨by simp [runTurns], ?_⟩
    intro rest h'
    simp [runTurns] at h'
  | cons ev rest ih =>
    intro reg h
    have hev : ev ≠ WaitEvent.timedOut := by
      intro he
      exact h (he ▸ List.mem_cons_self ev rest)
    have hrest : WaitEvent.timedOut ∉ rest := fun hr => h (List.mem_cons_of_mem _ hr)
    cases ev with
    | timedOut => exact absurd rfl hev
    | received m =>
      simp only [runTurns]
      cases hsig : (handleInbound oracle chan problem solution reg (.received m)).2.2 with
      | next =>
        simp only [hsig]
        exact ih _ hrest
      | advance =>
        simp only [hsig]
        exact ⟨by simp, fun rest' h' => by
          simp only [TurnsExit.advanced.injEq] at h'
          exact h' ▸ hrest⟩
      | stop k =>
        have hk := handleInbound_received_stop oracle chan problem solution reg m k hsig
        subst hk
        simp only [hsig]
        exact ⟨by simp, fun rest' h' => by simp at h'⟩

/-- Lifting of `runTurns_no_timeout` to the whole puzzle loop. -/
theorem runPuzzles_no_timeout (oracle : Oracle) (chan : Nat) :
    ∀ (puzzles : List PuzzleRecord) (reg : Registry) (i : Nat)
      (script : List WaitEvent), WaitEvent.timedOut ∉ script →
      (runPuzzles oracle chan reg i puzzles script).2.2 ≠ RunOutcome.timedOut := by
  intro puzzles
  induction puzzles with
  | nil =>
    intro reg i script _
    simp [runPuzzles]
  | cons q restPuzzles ih =>
    intro reg i script h
    have ht := runTurns_no_timeout oracle chan (getQuestion q) (getTruth q) script
      (regSetCurrent reg chan q) h
    simp only [runPuzzles]
    cases hsig : (runTurns oracle chan (getQuestion q) (getTruth q)
        (regSetCurrent reg chan q) script).2.2 with
    | advanced rest =>
      simp only [hsig]
      exact ih _ _ _ (ht.2 rest hsig)
    | stopped k =>
      cases k with
      | terminated => simp [hsig]
      | timedOut => exact absurd hsig ht.1
    | exhausted => simp [hsig]

/-- A message classified as a free-text question carries exactly the original
inbound text (`main.py:150-153` pass `msg.content`, not the lowercased copy). -/
theorem classify_question_payload (s raw : String) (h : classify s = .question raw) :
    raw = s := by
  simp only [classify] at h
  split_ifs at h <;> simp_all

/-! ### Claims -/

/-- C1: at most one active session per channel — a `!quiz` start request for a
channel that already has a registry entry is rejected with the already-active
message and the handler returns at once with the registry (hence every
session's state and every puzzle queue) unchanged (`main.py:96-98`). -/
theorem C1_duplicate_start_rejected (oracle : Oracle)
    (shuffle : List PuzzleRecord → List PuzzleRecord) (chan : Nat) (reg : Registry)
    (loadResult : Except String (List PuzzleRecord)) (script : List WaitEvent)
    (e : ChannelEntry) (h : regLookup reg chan = some e) :
    quizCommand oracle shuffle chan reg loadResult script =
      (reg, ["このチャンネルではすでにクイズが進行中です。"], .alreadyActive) := by
  simp [quizCommand, h]

/-- C1 witness: a concrete duplicate start against a channel with a live
session is rejected and mutates nothing. -/
theorem C1_duplicate_start_rejected_witness :
    quizCommand okOracle id 7 [(7, initialEntry)] (.ok [samplePuzzle])
        [.received ⟨7, false, "!終了"⟩] =
      ([(7, initialEntry)], ["このチャンネルではすでにクイズが進行中です。"], .alreadyActive) :=
  C1_duplicate_start_rejected okOracle id 7 [(7, initialEntry)] (.ok [samplePuzzle])
    [.received ⟨7, false, "!終了"⟩] initialEntry (by decide)

/-- C2: the claim says a failed puzzle-source load leaves the registry
untouched, but `main.py:100` inserts the channel's entry BEFORE the `open`
at `main.py:106`, and the failure path (`main.py:108-110`) returns without
deleting it.  Evaluated at the failing input: the channel is notified and no
session loop runs, but the placeholder entry remains in `active_games`, so
every later `!quiz` in that channel is rejected as already active. -/
theorem C2_load_failure_leaves_stale_entry :
    quizCommand okOracle id 0 [] (.error "No such file or directory") [] =
      ([(0, initialEntry)],
       ["問題の読み込みに失敗しました: No such file or directory"], .loadFailed) ∧
    regLookup [(0, initialEntry)] 0 = some initialEntry ∧
    quizCommand okOracle id 0 [(0, initialEntry)] (.ok [samplePuzzle]) [] =
      ([(0, initialEntry)], ["このチャンネルではすでにクイズが進行中です。"], .alreadyActive) := by
  decide

/-- C3: `previous_question` is `none` in the entry created at session start
(`main.py:100-103`) and is reset to `none` by a Skip (`main.py:138`) or a
RevealAnswer (`main.py:142`) turn; a Question turn sets it to exactly that
turn's raw text (`main.py:161`); Hint and Ignored turns leave the registry
untouched, so outside the cleared states it stays the most recent Question's
raw text on the current puzzle. -/
theorem C3_previous_question_invariant (oracle : Oracle) (chan : Nat)
    (problem solution : String) (reg : Registry) (e : ChannelEntry) (m : Message)
    (hreg : regLookup reg chan = some e) :
    initialEntry.previous_question = none ∧
    (classify m.content = .cmdSkip →
      prevOf (handleInbound oracle chan problem solution reg (.received m)).1 chan = none) ∧
    (classify m.content = .cmdAnswer →
      prevOf (handleInbound oracle chan problem solution reg (.received m)).1 chan = none) ∧
    (∀ raw, classify m.content = .question raw →
      prevOf (handleInbound oracle chan problem solution reg (.received m)).1 chan = some raw) ∧
    (classify m.content = .cmdHint →
      (handleInbound oracle chan problem solution reg (.received m)).1 = reg) ∧
    (∀ raw, classify m.content = .ignored raw →
      (handleInbound oracle chan problem solution reg (.received m)).1 = reg) := by
  refine ⟨rfl, ?_, ?_, ?_, ?_, ?_⟩
  · intro hc
    simp [handleInbound, hc, prevOf, regLookup_regSetPrev reg chan none e hreg]
  · intro hc
    simp [handleInbound, hc, prevOf, regLookup_regSetPrev reg chan none e hreg]
  · intro raw hc
    simp [handleInbound, hc, prevOf, regLookup_regSetPrev reg chan (some raw) e hreg]
  · intro hc
    simp [handleInbound, hc]
  · intro raw hc
    simp [handleInbound, hc]

/-- C3 witness: a Question turn stores its raw text, and a following Skip turn
clears it again, at concrete inputs. -/
theorem C3_previous_question_invariant_witness :
    prevOf (handleInbound okOracle 0 "P" "S" [(0, initialEntry)]
        (.received ⟨0, false, "Is it a man?"⟩)).1 0 = some "Is it a man?" ∧
    prevOf (handleInbound okOracle 0 "P" "S" [(0, ⟨some "Is it a man?", none⟩)]
        (.received ⟨0, false, "!スキップ"⟩)).1 0 = none :=
  ⟨(C3_previous_question_invariant okOracle 0 "P" "S" [(0, initialEntry)]
      initialEntry ⟨0, false, "Is it a man?"⟩ (by decide)).2.2.2.1
        "Is it a man?" (by decide),
   (C3_previous_question_invariant okOracle 0 "P" "S" [(0, ⟨some "Is it a man?", none⟩)]
      ⟨some "Is it a man?", none⟩ ⟨0, false, "!スキップ"⟩ (by decide)).2.1 (by decide)⟩

/-- C4 counterexample: the claim says the comparative judgment is emitted iff
`previousQuestion` was PRESENT (set) when the Question turn began.  A first
Question turn with empty raw text (a Discord message whose `content` is `""`,
e.g. an attachment-only message) reaches a state whose `previous_question` is
`some ""` — present — yet the next Question turn emits no comparative message,
because `main.py:73` tests Python truthiness and `""` is falsy. -/
theorem C4_comparative_counterexample :
    (quizCommand okOracle id 0 [] (.ok [samplePuzzle]) [.received ⟨0, false, ""⟩]).1 =
      [(0, ⟨some "", some samplePuzzle⟩)] ∧
    (Option.some "").isSome = true ∧
    handleInbound okOracle 0 "P" "S" [(0, ⟨some "", some samplePuzzle⟩)]
        (.received ⟨0, false, "Is it a man?"⟩) =
      ([(0, ⟨some "Is it a man?", some samplePuzzle⟩)], ["マスター: はい"], .next) := by
  decide

/-- C4 (amended): provided every successful oracle reply is nonempty after
stripping (failure replies always are), a Question turn emits the
comparative-judgment message iff `previous_question` was present AND nonempty
(Python-truthy) when the turn began; when emitted it immediately follows the
direct-answer message. -/
theorem C4_comparative_iff_truthy (oracle : Oracle) (chan : Nat)
    (problem solution : String) (reg : Registry) (e : ChannelEntry) (m : Message)
    (raw : String) (hreg : regLookup reg chan = some e)
    (hq : classify m.content = .question raw)
    (horacle : ∀ sys p r, oracle sys p = .ok r → pyStrip r ≠ "") :
    (handleInbound oracle chan problem solution reg (.received m)).2.1 =
      ("マスター: " ++ ask_question oracle (questionPrompt problem solution raw) false) ::
        (if pyTruthy e.previous_question then
          ["質問の評価: " ++ ask_question oracle
              (comparisonPrompt problem solution (e.previous_question.getD "") raw) true]
         else []) := by
  have hprev : prevOf reg chan = e.previous_question := by simp [prevOf, hreg]
  simp only [handleInbound, hq, hprev, get_responses]
  cases hp : e.previous_question with
  | none => simp [pyTruthy]
  | some p =>
    by_cases hpe : p = ""
    · subst hpe
      simp [pyTruthy]
    · have hne := ask_question_ne_empty oracle (comparisonPrompt problem solution p raw) true horacle
      simp [pyTruthy, hpe, hne]

/-- C4 witness: the spec's own two-question scenario under an oracle that
always answers `はい`: the second turn emits direct then comparative. -/
theorem C4_comparative_iff_truthy_witness :
    (handleInbound okOracle 0 "P" "S" [(0, ⟨some "Was it raining?", none⟩)]
        (.received ⟨0, false, "Is he underwater?"⟩)).2.1 =
      ["マスター: はい", "質問の評価: はい"] :=
  C4_comparative_iff_truthy okOracle 0 "P" "S" [(0, ⟨some "Was it raining?", none⟩)]
    ⟨some "Was it raining?", none⟩ ⟨0, false, "Is he underwater?"⟩ "Is he underwater?"
    (by decide) (by decide)
    (by intro sys p r h; simp [okOracle] at h; subst h; decide)

/-- C5: a Question turn always proceeds normally regardless of the oracle's
behaviour — the registry entry survives with `previous_question` set to the
question's raw text, the loop signal is `continue` (same puzzle, session
still active) — and when the direct oracle call fails, the caught failure's
inline error text is sent in place of the judgment as the direct answer
(`main.py:59-64`, `main.py:150-161`). -/
theorem C5_oracle_failure_recovered (oracle : Oracle) (chan : Nat)
    (problem solution : String) (reg : Registry) (e : ChannelEntry) (m : Message)
    (raw : String) (f : OracleFailure)
    (hreg : regLookup reg chan = some e)
    (hq : classify m.content = .question raw) :
    (handleInbound oracle chan problem solution reg (.received m)).1 =
        regSetPrev reg chan (some raw) ∧
    regLookup (handleInbound oracle chan problem solution reg (.received m)).1 chan =
        some { e with previous_question := some raw } ∧
    (handleInbound oracle chan problem solution reg (.received m)).2.2 = .next ∧
    (oracle (systemContent false) (questionPrompt problem solution raw) = .error f →
      (handleInbound oracle chan problem solution reg (.received m)).2.1.head? =
        some ("マスター: " ++ errorText f)) := by
  refine ⟨by simp [handleInbound, hq], ?_, by simp [handleInbound, hq], ?_⟩
  · simp only [handleInbound, hq]
    simpa using regLookup_regSetPrev reg chan (some raw) e hreg
  · intro hfail
    simp [handleInbound, hq, get_responses, ask_question, hfail]

/-- C5 witness: with an oracle that always raises `openai.APIError`, the turn
sends the inline error text, still records the question, and stays active. -/
theorem C5_oracle_failure_recovered_witness :
    (handleInbound failOracle 0 "P" "S" [(0, initialEntry)]
        (.received ⟨0, false, "Is it a man?"⟩)).1 =
      regSetPrev [(0, initialEntry)] 0 (some "Is it a man?") ∧
    regLookup (handleInbound failOracle 0 "P" "S" [(0, initialEntry)]
        (.received ⟨0, false, "Is it a man?"⟩)).1 0 =
      some ⟨some "Is it a man?", none⟩ ∧
    (handleInbound failOracle 0 "P" "S" [(0, initialEntry)]
        (.received ⟨0, false, "Is it a man?"⟩)).2.2 = .next ∧
    (failOracle (systemContent false) (questionPrompt "P" "S" "Is it a man?") =
        .error (.apiError "Connection error") →
      (handleInbound failOracle 0 "P" "S" [(0, initialEntry)]
          (.received ⟨0, false, "Is it a man?"⟩)).2.1.head? =
        some ("マスター: " ++ errorText (.apiError "Connection error"))) :=
  C5_oracle_failure_recovered failOracle 0 "P" "S" [(0, initialEntry)] initialEntry
    ⟨0, false, "Is it a man?"⟩ "Is it a man?" (.apiError "Connection error")
    (by decide) (by decide)

/-- C6: advancing past the last puzzle record ends the `for` loop: the
completion message is the final send, the channel's entry is deleted from
the registry (`main.py:168-169`), and a later lookup for the channel finds
no session. -/
theorem C6_queue_exhaustion_completes (oracle : Oracle) (chan : Nat)
    (reg : Registry) (i : Nat) (q : PuzzleRecord) (script rest : List WaitEvent)
    (reg2 : Registry) (sends : List String)
    (h : runTurns oracle chan (getQuestion q) (getTruth q) (regSetCurrent reg chan q) script =
          (reg2, sends, .advanced rest)) :
    (runPuzzles oracle chan reg i [q] script).2.2 = .completed ∧
    regLookup (runPuzzles oracle chan reg i [q] script).1 chan = none ∧
    (runPuzzles oracle chan reg i [q] script).2.1.getLast? =
      some "全ての問題が終了しました。お疲れさまでした！" := by
  have hexp : runPuzzles oracle chan reg i [q] script =
      (regErase reg2 chan,
       ["\n**問題 " ++ toString i ++ ":** " ++ getQuestion q, commandHelp] ++ sends ++
         ["全ての問題が終了しました。お疲れさまでした！"],
       .completed) := by
    simp [runPuzzles, h]
  rw [hexp]
  exact ⟨rfl, regLookup_regErase reg2 chan, List.getLast?_concat _⟩

/-- C6 witness: the spec's scenario — a single-puzzle set consumed by one
`!スキップ` reaches Completed, with the entry gone from the registry. -/
theorem C6_queue_exhaustion_completes_witness :
    (runPuzzles okOracle 0 [(0, initialEntry)] 1 [samplePuzzle]
        [.received ⟨0, false, "!スキップ"⟩]).2.2 = .completed ∧
    regLookup (runPuzzles okOracle 0 [(0, initialEntry)] 1 [samplePuzzle]
        [.received ⟨0, false, "!スキップ"⟩]).1 0 = none ∧
    (runPuzzles okOracle 0 [(0, initialEntry)] 1 [samplePuzzle]
        [.received ⟨0, false, "!スキップ"⟩]).2.1.getLast? =
      some "全ての問題が終了しました。お疲れさまでした！" :=
  C6_queue_exhaustion_completes okOracle 0 [(0, initialEntry)] 1 samplePuzzle
    [.received ⟨0, false, "!スキップ"⟩] [] [(0, ⟨none, some samplePuzzle⟩)]
    ["問題をスキップします。"] (by decide)

/-- C7: a timeout outcome of the wait — no inbound message satisfying `check`
(channel match and non-bot sender) within `idleTimeoutSeconds = 300` seconds
— ends the session at once whatever would have come later in the script and
whatever the current puzzle is: the timeout message is sent, the entry is
deleted, and a later lookup finds no session (`main.py:124-129`,
`main.py:163-166`). -/
theorem C7_idle_timeout_terminates (oracle : Oracle) (chan : Nat)
    (problem solution : String) (reg : Registry) (rest : List WaitEvent)
    (i : Nat) (q : PuzzleRecord) (qs : List PuzzleRecord) (script : List WaitEvent) :
    runTurns oracle chan problem solution reg (WaitEvent.timedOut :: rest) =
      (regErase reg chan, ["5分間質問がなかったため、クイズを終了します。"],
       .stopped .timedOut) ∧
    regLookup (regErase reg chan) chan = none ∧
    (runPuzzles oracle chan reg i (q :: qs) (WaitEvent.timedOut :: script)).2.2 =
      RunOutcome.timedOut ∧
    regLookup (runPuzzles oracle chan reg i (q :: qs)
      (WaitEvent.timedOut :: script)).1 chan = none ∧
    idleTimeoutSeconds = 300 ∧
    (∀ mm : Message, check chan mm = true ↔ mm.channelId = chan ∧ mm.authorIsBot = false) := by
  refine ⟨by simp [runTurns, handleInbound], regLookup_regErase reg chan, ?_, ?_, rfl, ?_⟩
  · simp [runPuzzles, runTurns, handleInbound]
  · simp [runPuzzles, runTurns, handleInbound, regLookup_regErase]
  · intro mm
    simp [check]

/-- C8: classification compares the lowercased message against each reserved
token by exact whole-string value (case-insensitive match); `!`-prefixed text
matching no token is Ignored — no outbound message and no mutation — and all
other text is a Question whose payload, the text forwarded to the oracle and
stored as `previous_question`, is the ORIGINAL input, not the lowercased copy
(`main.py:130-161`). -/
theorem C8_command_classification (raw : String) (oracle : Oracle) (chan : Nat)
    (problem solution : String) (reg : Registry) (m : Message) :
    (classify raw = .cmdEnd ↔ pyLower raw = "!終了") ∧
    (classify raw = .cmdSkip ↔ pyLower raw = "!スキップ") ∧
    (classify raw = .cmdAnswer ↔ pyLower raw = "!解答") ∧
    (classify raw = .cmdHint ↔ pyLower raw = "!ヒント") ∧
    (pyStarts (pyLower raw) "!" = true → pyLower raw ≠ "!終了" →
      pyLower raw ≠ "!スキップ" → pyLower raw ≠ "!解答" → pyLower raw ≠ "!ヒント" →
      classify raw = .ignored raw) ∧
    (pyStarts (pyLower raw) "!" = false → classify raw = .question raw) ∧
    (classify m.content = .ignored m.content →
      handleInbound oracle chan problem solution reg (.received m) = (reg, [], .next)) ∧
    (∀ raw2, classify m.content = .question raw2 →
      raw2 = m.content ∧
      (handleInbound oracle chan problem solution reg (.received m)).1 =
        regSetPrev reg chan (some m.content) ∧
      (handleInbound oracle chan problem solution reg (.received m)).2.1.head? =
        some ("マスター: " ++
          ask_question oracle (questionPrompt problem solution m.content) false)) := by
  refine ⟨?_, ?_, ?_, ?_, ?_, ?_, ?_, ?_⟩
  · simp only [classify]
    split_ifs <;> simp_all
  · simp only [classify]
    split_ifs <;> simp_all
  · simp only [classify]
    split_ifs <;> simp_all
  · simp only [classify]
    split_ifs <;> simp_all
  · intro hs h1 h2 h3 h4
    simp only [classify]
    split_ifs <;> simp_all
  · intro hs
    simp only [classify]
    split_ifs with h1 h2 h3 h4 h5
    · rw [h1] at hs
      exact absurd hs (by decide)
    · rw [h2] at hs
      exact absurd hs (by decide)
    · rw [h3] at hs
      exact absurd hs (by decide)
    · rw [h4] at hs
      exact absurd hs (by decide)
    · exact absurd h5 (by simp [hs])
    · rfl
  · intro hc
    simp [handleInbound, hc]
  · intro raw2 hc
    have hpay := classify_question_payload m.content raw2 hc
    subst hpay
    exact ⟨rfl, by simp [handleInbound, hc], by simp [handleInbound, hc, get_responses]⟩

/-- C8 witness: concrete classifications — a reserved token, an unrecognized
`!`-command (dropped with no send and no mutation), and a mixed-case free-text
question whose original casing is preserved. -/
theorem C8_command_classification_witness :
    classify "!スキップ" = .cmdSkip ∧
    classify "!FOO" = .ignored "!FOO" ∧
    classify "Is It Raining?" = .question "Is It Raining?" ∧
    handleInbound okOracle 0 "P" "S" [(0, initialEntry)] (.received ⟨0, false, "!FOO"⟩) =
      ([(0, initialEntry)], [], .next) :=
  ⟨(C8_command_classification "!スキップ" okOracle 0 "P" "S" [] ⟨0, false, ""⟩).2.1.mpr
      (by decide),
   (C8_command_classification "!FOO" okOracle 0 "P" "S" [] ⟨0, false, ""⟩).2.2.2.2.1
      (by decide) (by decide) (by decide) (by decide) (by decide),
   (C8_command_classification "Is It Raining?" okOracle 0 "P" "S" []
      ⟨0, false, ""⟩).2.2.2.2.2.1 (by decide),
   (C8_command_classification "" okOracle 0 "P" "S" [(0, initialEntry)]
      ⟨0, false, "!FOO"⟩).2.2.2.2.2.2.1 (by decide)⟩

/-- C9: a record missing its `Question` or `Truth` field is not rejected —
`dict.get` substitutes the fixed placeholder (`main.py:116-117`) — and the
puzzle stays playable: a RevealAnswer turn on a record with no `Truth` field
sends the placeholder solution (`main.py:140-141`). -/
theorem C9_missing_fields_placeholder (r : PuzzleRecord) (oracle : Oracle)
    (chan : Nat) (reg : Registry) (m : Message) :
    (r.questionField = none → getQuestion r = "問題が見つかりません") ∧
    (r.truthField = none → getTruth r = "解答が見つかりません") ∧
    (r.truthField = none → classify m.content = .cmdAnswer →
      handleInbound oracle chan (getQuestion r) (getTruth r) reg (.received m) =
        (regSetPrev reg chan none, ["解答: 解答が見つかりません"], .advance)) := by
  refine ⟨?_, ?_, ?_⟩
  · intro h
    simp [getQuestion, h]
  · intro h
    simp [getTruth, h]
  · intro ht hc
    simp [handleInbound, hc, getTruth, ht]

/-- C9 witness: a record with no `Truth` field yields the placeholder, and a
concrete `!解答` turn on it sends the placeholder solution. -/
theorem C9_missing_fields_placeholder_witness :
    getTruth ⟨some "P", none⟩ = "解答が見つかりません" ∧
    handleInbound okOracle 0 (getQuestion ⟨some "P", none⟩) (getTruth ⟨some "P", none⟩)
        [(0, initialEntry)] (.received ⟨0, false, "!解答"⟩) =
      (regSetPrev [(0, initialEntry)] 0 none, ["解答: 解答が見つかりません"], .advance) :=
  ⟨(C9_missing_fields_placeholder ⟨some "P", none⟩ okOracle 0 [] ⟨0, false, ""⟩).2.1 rfl,
   (C9_missing_fields_placeholder ⟨some "P", none⟩ okOracle 0 [(0, initialEntry)]
      ⟨0, false, "!解答"⟩).2.2 rfl (by decide)⟩

/-- C10: every received matching message restarts the idle window — an
Ignored message consumes its wait and leaves the loop exactly as a fresh
`idleTimeoutSeconds`-bounded wait over the remaining script, with no send
and no mutation; a HintRequest does the same except for its fixed reply —
and a session whose wait outcomes are all received messages (no timeout
outcome anywhere in the script) never ends TimedOut. -/
theorem C10_any_matching_message_resets_window (oracle : Oracle) (chan : Nat)
    (problem solution : String) (reg : Registry) (m : Message)
    (rest : List WaitEvent) (i : Nat) (puzzles : List PuzzleRecord)
    (script : List WaitEvent) :
    (classify m.content = .ignored m.content →
      runTurns oracle chan problem solution reg (.received m :: rest) =
        runTurns oracle chan problem solution reg rest) ∧
    (classify m.content = .cmdHint →
      runTurns oracle chan problem solution reg (.received m :: rest) =
        ((runTurns oracle chan problem solution reg rest).1,
         "ヒント機能は現在実装されていません。" ::
           (runTurns oracle chan problem solution reg rest).2.1,
         (runTurns oracle chan problem solution reg rest).2.2)) ∧
    (WaitEvent.timedOut ∉ script →
      (runPuzzles oracle chan reg i puzzles script).2.2 ≠ RunOutcome.timedOut) := by
  refine ⟨?_, ?_, runPuzzles_no_timeout oracle chan puzzles reg i script⟩
  · intro hc
    simp [runTurns, handleInbound, hc]
  · intro hc
    simp [runTurns, handleInbound, hc]

/-- C10 witness: an unrecognized `!`-command consumes one wait and resets the
loop with nothing sent, and a timeout-free script never ends TimedOut. -/
theorem C10_any_matching_message_resets_window_witness :
    runTurns okOracle 0 "P" "S" [(0, initialEntry)]
        [.received ⟨0, false, "!FOO"⟩, .received ⟨0, false, "!ヒント"⟩] =
      runTurns okOracle 0 "P" "S" [(0, initialEntry)] [.received ⟨0, false, "!ヒント"⟩] ∧
    (runPuzzles okOracle 0 [(0, initialEntry)] 1 [samplePuzzle]
        [.received ⟨0, false, "!FOO"⟩]).2.2 ≠ RunOutcome.timedOut :=
  ⟨(C10_any_matching_message_resets_window okOracle 0 "P" "S" [(0, initialEntry)]
      ⟨0, false, "!FOO"⟩ [.received ⟨0, false, "!ヒント"⟩] 1 [samplePuzzle]
      [.received ⟨0, false, "!FOO"⟩]).1 (by decide),
   (C10_any_matching_message_resets_window okOracle 0 "P" "S" [(0, initialEntry)]
      ⟨0, false, "!FOO"⟩ [.received ⟨0, false, "!ヒント"⟩] 1 [samplePuzzle]
      [.received ⟨0, false, "!FOO"⟩]).2.2 (by decide)⟩

end RkQuiz
